import Mathlib

/-!
Shallow embedding of the geometric shape model and transform engine of the
mini-paint repository (src/shapes.py, src/canvas.py, src/main.py).

Coordinates are modelled as real numbers; Python float arithmetic is
idealised as exact real arithmetic (the spec's "epsilon-exact" equalities
become exact equalities over ℝ).  Python's optional pivot arguments
`center_x=None, center_y=None` are modelled as an `Option Pt`; a Python
`ZeroDivisionError` (division by `len(points)` for an empty point list)
is modelled by returning `none` from an `Option`-valued operation.
Mutating methods are modelled as pure functions from the shape state to a
new shape state.
-/

namespace MiniPaint

/-- A 2D point, as used for the `(x, y)` coordinate pairs in shapes.py. -/
structure Pt where
  x : ℝ
  y : ℝ

/-- The style and selection fields every shape carries, set in
`Shape.__init__` (shapes.py lines 6-12). -/
structure Style where
  selected : Bool
  line_color : String
  fill_color : String
  line_width : Int
  line_style : String

/-- The defaults assigned in `Shape.__init__`. -/
def defaultStyle : Style :=
  { selected := false, line_color := "black", fill_color := "",
    line_width := 2, line_style := "solid" }

/-- The rotation formula repeated in every `rotate` method of shapes.py:
`new_x = cx + dx*cos(a) - dy*sin(a)`, `new_y = cy + dx*sin(a) + dy*cos(a)`
with `dx = x - cx`, `dy = y - cy`. -/
noncomputable def rotPt (angle : ℝ) (c p : Pt) : Pt :=
  { x := c.x + (p.x - c.x) * Real.cos angle - (p.y - c.y) * Real.sin angle,
    y := c.y + (p.x - c.x) * Real.sin angle + (p.y - c.y) * Real.cos angle }

/-- The scaling formula repeated in every `scale` method of shapes.py:
`new = c + (p - c) * factor`, componentwise. -/
def scalePt (f : ℝ) (c p : Pt) : Pt :=
  { x := c.x + (p.x - c.x) * f, y := c.y + (p.y - c.y) * f }

/-- The shear formula used by every `shear` method of shapes.py:
`new_x = x + shear_x * y`, `new_y = y + shear_y * x`. -/
def shearPt (sx sy : ℝ) (p : Pt) : Pt :=
  { x := p.x + sx * p.y, y := p.y + sy * p.x }

/-- The default-pivot computation of `Triangle.scale` / `Triangle.rotate` /
`Polygon.scale` / `Polygon.rotate`: `sum(xs)/len(xs)`, `sum(ys)/len(ys)`.
For an empty point list Python raises `ZeroDivisionError`; this is
modelled by `none`. -/
noncomputable def centroid (ps : List Pt) : Option Pt :=
  if ps.length = 0 then none
  else some { x := (ps.map Pt.x).sum / ps.length, y := (ps.map Pt.y).sum / ps.length }

/-- Modelled from the spec (section 4.2): the standard 2D rotation
`p' = pivot + R(angle)(p - pivot)`, with rotation matrix
`R(angle) = [[cos, -sin], [sin, cos]]`.  Used to compare the source's
per-variant rotate implementations against the spec's formula. -/
noncomputable def specRotate (c : Pt) (angle : ℝ) (p : Pt) : Pt :=
  { x := c.x + (Real.cos angle * (p.x - c.x) - Real.sin angle * (p.y - c.y)),
    y := c.y + (Real.sin angle * (p.x - c.x) + Real.cos angle * (p.y - c.y)) }

/-! ## Line (shapes.py lines 54-140) -/

/-- The state of a `Line`: two endpoints plus the inherited style fields. -/
structure Line where
  x1 : ℝ
  y1 : ℝ
  x2 : ℝ
  y2 : ℝ
  style : Style

/-- Constructor `Line.__init__`: verbatim endpoints, default style. -/
def Line.new (x1 y1 x2 y2 : ℝ) : Line :=
  { x1 := x1, y1 := y1, x2 := x2, y2 := y2, style := defaultStyle }

/-- The condition computed by `Line.contains_point` (shapes.py 66-85),
including the zero-length-line fallback: when the implicit-line
denominator `sqrt(A*A + B*B)` is zero, the test falls back to a distance
check against the first endpoint. -/
noncomputable def Line.contains_point (l : Line) (x y : ℝ) : Prop :=
  let A := l.y2 - l.y1
  let B := l.x1 - l.x2
  let C := l.x2 * l.y1 - l.x1 * l.y2
  let denominator := Real.sqrt (A * A + B * B)
  if denominator = 0 then
    Real.sqrt ((x - l.x1) ^ 2 + (y - l.y1) ^ 2) < 5
  else
    |A * x + B * y + C| / denominator < 5 ∧
    min l.x1 l.x2 - 5 ≤ x ∧ x ≤ max l.x1 l.x2 + 5 ∧
    min l.y1 l.y2 - 5 ≤ y ∧ y ≤ max l.y1 l.y2 + 5

/-- `Line.translate`. -/
def Line.translate (dx dy : ℝ) (l : Line) : Line :=
  { l with x1 := l.x1 + dx, y1 := l.y1 + dy, x2 := l.x2 + dx, y2 := l.y2 + dy }

/-- `Line.scale`: pivot defaults to the midpoint of the endpoints. -/
noncomputable def Line.scale (factor : ℝ) (pivot : Option Pt) (l : Line) : Line :=
  let c := pivot.getD { x := (l.x1 + l.x2) / 2, y := (l.y1 + l.y2) / 2 }
  { l with x1 := c.x + (l.x1 - c.x) * factor, y1 := c.y + (l.y1 - c.y) * factor,
           x2 := c.x + (l.x2 - c.x) * factor, y2 := c.y + (l.y2 - c.y) * factor }

/-- `Line.rotate`: pivot defaults to the midpoint of the endpoints; both
endpoints are rotated with the standard formula. -/
noncomputable def Line.rotate (angle : ℝ) (pivot : Option Pt) (l : Line) : Line :=
  let c := pivot.getD { x := (l.x1 + l.x2) / 2, y := (l.y1 + l.y2) / 2 }
  let p1 := rotPt angle c { x := l.x1, y := l.y1 }
  let p2 := rotPt angle c { x := l.x2, y := l.y2 }
  { l with x1 := p1.x, y1 := p1.y, x2 := p2.x, y2 := p2.y }

/-- `Line.copy` (shapes.py 127-132): copies the endpoints, `line_color`,
`line_width` and `line_style`; the fresh `Line(...)` leaves `fill_color`
at the constructor default `""` and `selected` at `False`. -/
def Line.copy (l : Line) : Line :=
  { x1 := l.x1, y1 := l.y1, x2 := l.x2, y2 := l.y2,
    style := { selected := false, line_color := l.style.line_color,
               fill_color := "", line_width := l.style.line_width,
               line_style := l.style.line_style } }

/-- `Line.shear`. -/
def Line.shear (sx sy : ℝ) (l : Line) : Line :=
  { l with x1 := l.x1 + sx * l.y1, y1 := l.y1 + sy * l.x1,
           x2 := l.x2 + sx * l.y2, y2 := l.y2 + sy * l.x2 }

/-! ## Circle (shapes.py lines 142-215) -/

/-- The state of a `Circle`: center and radius plus style fields. -/
structure Circle where
  center_x : ℝ
  center_y : ℝ
  radius : ℝ
  style : Style

/-- `Circle.translate`. -/
def Circle.translate (dx dy : ℝ) (c : Circle) : Circle :=
  { c with center_x := c.center_x + dx, center_y := c.center_y + dy }

/-- `Circle.scale` (shapes.py 173-180): with a defaulted pivot only the
radius scales; with an explicit pivot the center is moved by the scaling
formula as well.  In both branches `radius *= factor`. -/
def Circle.scale (factor : ℝ) (pivot : Option Pt) (c : Circle) : Circle :=
  match pivot with
  | none => { c with radius := c.radius * factor }
  | some piv =>
      { c with center_x := piv.x + (c.center_x - piv.x) * factor,
               center_y := piv.y + (c.center_y - piv.y) * factor,
               radius := c.radius * factor }

/-- `Circle.rotate` (shapes.py 182-192): a defaulted pivot is a no-op;
an explicit pivot relocates the center by the rotation formula. -/
noncomputable def Circle.rotate (angle : ℝ) (pivot : Option Pt) (c : Circle) : Circle :=
  match pivot with
  | none => c
  | some piv =>
      let nc := rotPt angle piv { x := c.center_x, y := c.center_y }
      { c with center_x := nc.x, center_y := nc.y }

/-- `Circle.copy`: all four style fields copied, `selected` reset. -/
def Circle.copy (c : Circle) : Circle :=
  { c with style := { selected := false, line_color := c.style.line_color,
                      fill_color := c.style.fill_color,
                      line_width := c.style.line_width,
                      line_style := c.style.line_style } }

/-! ## Polygon (shapes.py lines 634-727) -/

/-- The state of a `Polygon`: an ordered point list plus style fields. -/
structure Polygon where
  points : List Pt
  style : Style

/-- Constructor `Polygon.__init__`: stores a copy of the given list. -/
def Polygon.new (ps : List Pt) : Polygon :=
  { points := ps, style := defaultStyle }

/-- `Polygon.get_bounds`: `(0,0,0,0)` for an empty list, else min/max
over the coordinates. -/
noncomputable def Polygon.get_bounds (p : Polygon) : ℝ × ℝ × ℝ × ℝ :=
  match p.points with
  | [] => (0, 0, 0, 0)
  | q :: qs =>
      ((qs.map Pt.x).foldr min q.x, (qs.map Pt.y).foldr min q.y,
       (qs.map Pt.x).foldr max q.x, (qs.map Pt.y).foldr max q.y)

/-- `Polygon.translate`. -/
def Polygon.translate (dx dy : ℝ) (p : Polygon) : Polygon :=
  { p with points := p.points.map fun q => { x := q.x + dx, y := q.y + dy } }

/-- `Polygon.scale` (shapes.py 682-691): the defaulted pivot is the
centroid `sum/len`, which raises `ZeroDivisionError` on an empty point
list (modelled as `none`). -/
noncomputable def Polygon.scale (factor : ℝ) (pivot : Option Pt) (p : Polygon) :
    Option Polygon :=
  match pivot with
  | some c => some { p with points := p.points.map (scalePt factor c) }
  | none => (centroid p.points).map fun c =>
      { p with points := p.points.map (scalePt factor c) }

/-- `Polygon.rotate` (shapes.py 693-711): same defaulted-pivot policy as
`Polygon.scale`; every point is rotated by the standard formula. -/
noncomputable def Polygon.rotate (angle : ℝ) (pivot : Option Pt) (p : Polygon) :
    Option Polygon :=
  match pivot with
  | some c => some { p with points := p.points.map (rotPt angle c) }
  | none => (centroid p.points).map fun c =>
      { p with points := p.points.map (rotPt angle c) }

/-- `Polygon.copy`: point list copied by slicing, all four style fields
copied, `selected` reset by the fresh constructor. -/
def Polygon.copy (p : Polygon) : Polygon :=
  { points := p.points,
    style := { selected := false, line_color := p.style.line_color,
               fill_color := p.style.fill_color,
               line_width := p.style.line_width,
               line_style := p.style.line_style } }

/-- `Polygon.shear`. -/
def Polygon.shear (sx sy : ℝ) (p : Polygon) : Polygon :=
  { p with points := p.points.map (shearPt sx sy) }

/-! ## Rectangle (shapes.py lines 217-311) -/

/-- The state of a `Rectangle`: two normalized corners plus style. -/
structure Rectangle where
  x1 : ℝ
  y1 : ℝ
  x2 : ℝ
  y2 : ℝ
  style : Style

/-- Constructor `Rectangle.__init__`: corners normalized so that
`x1 ≤ x2` and `y1 ≤ y2`. -/
noncomputable def Rectangle.new (a b c d : ℝ) : Rectangle :=
  { x1 := min a c, y1 := min b d, x2 := max a c, y2 := max b d,
    style := defaultStyle }

/-- `Rectangle.get_bounds`. -/
def Rectangle.get_bounds (r : Rectangle) : ℝ × ℝ × ℝ × ℝ :=
  (r.x1, r.y1, r.x2, r.y2)

/-- `Rectangle.translate`. -/
def Rectangle.translate (dx dy : ℝ) (r : Rectangle) : Rectangle :=
  { r with x1 := r.x1 + dx, y1 := r.y1 + dy, x2 := r.x2 + dx, y2 := r.y2 + dy }

/-- `Rectangle.scale`: pivot defaults to the rectangle's center. -/
noncomputable def Rectangle.scale (factor : ℝ) (pivot : Option Pt) (r : Rectangle) :
    Rectangle :=
  let c := pivot.getD { x := (r.x1 + r.x2) / 2, y := (r.y1 + r.y2) / 2 }
  { r with x1 := c.x + (r.x1 - c.x) * factor, y1 := c.y + (r.y1 - c.y) * factor,
           x2 := c.x + (r.x2 - c.x) * factor, y2 := c.y + (r.y2 - c.y) * factor }

/-- `Rectangle.rotate` (shapes.py 262-286): rotates the four corners
`(x1,y1), (x2,y1), (x2,y2), (x1,y2)` about the pivot (defaulting to the
rectangle's center) and stores the axis-aligned bounding box of the four
rotated corners — the rectangle stays axis-aligned (lossy by design). -/
noncomputable def Rectangle.rotate (angle : ℝ) (pivot : Option Pt) (r : Rectangle) :
    Rectangle :=
  let c := pivot.getD { x := (r.x1 + r.x2) / 2, y := (r.y1 + r.y2) / 2 }
  let p1 := rotPt angle c { x := r.x1, y := r.y1 }
  let p2 := rotPt angle c { x := r.x2, y := r.y1 }
  let p3 := rotPt angle c { x := r.x2, y := r.y2 }
  let p4 := rotPt angle c { x := r.x1, y := r.y2 }
  { r with x1 := min (min (min p1.x p2.x) p3.x) p4.x,
           y1 := min (min (min p1.y p2.y) p3.y) p4.y,
           x2 := max (max (max p1.x p2.x) p3.x) p4.x,
           y2 := max (max (max p1.y p2.y) p3.y) p4.y }

/-- `Rectangle.copy` (shapes.py 288-294): constructs a fresh
`Rectangle(x1, y1, x2, y2)`, whose constructor re-normalizes the corners
with min/max (shapes.py 220-221); the four style fields are copied and
`selected` is reset.  On a denormalized rectangle (reachable via a
negative-factor scale) the copy's corner fields therefore differ from
the original's. -/
noncomputable def Rectangle.copy (r : Rectangle) : Rectangle :=
  { x1 := min r.x1 r.x2, y1 := min r.y1 r.y2,
    x2 := max r.x1 r.x2, y2 := max r.y1 r.y2,
    style := { selected := false, line_color := r.style.line_color,
               fill_color := r.style.fill_color,
               line_width := r.style.line_width,
               line_style := r.style.line_style } }

/-- `Rectangle.shear` (shapes.py 296-311): shears the four corners and
becomes a `Polygon` (the Python code reassigns `self.__class__`). -/
def Rectangle.shear (sx sy : ℝ) (r : Rectangle) : Polygon :=
  { points := [shearPt sx sy { x := r.x1, y := r.y1 },
               shearPt sx sy { x := r.x2, y := r.y1 },
               shearPt sx sy { x := r.x2, y := r.y2 },
               shearPt sx sy { x := r.x1, y := r.y2 }],
    style := r.style }

/-! ## Ellipse (shapes.py lines 313-392) -/

/-- The state of an `Ellipse`: center, width, height plus style. -/
structure Ellipse where
  center_x : ℝ
  center_y : ℝ
  width : ℝ
  height : ℝ
  style : Style

/-- `Ellipse.contains_point` (shapes.py 333-340): returns `False` when
`width ≤ 0` or `height ≤ 0` (guarding the division), else the normalized
filled-region test. -/
noncomputable def Ellipse.contains_point (e : Ellipse) (x y : ℝ) : Prop :=
  if e.width ≤ 0 ∨ e.height ≤ 0 then False
  else
    let dx := (x - e.center_x) / (e.width / 2)
    let dy := (y - e.center_y) / (e.height / 2)
    dx * dx + dy * dy ≤ 1

/-- `Ellipse.translate`. -/
def Ellipse.translate (dx dy : ℝ) (e : Ellipse) : Ellipse :=
  { e with center_x := e.center_x + dx, center_y := e.center_y + dy }

/-- `Ellipse.scale`: like `Circle.scale`, with `width` and `height` both
multiplied by the factor. -/
def Ellipse.scale (factor : ℝ) (pivot : Option Pt) (e : Ellipse) : Ellipse :=
  match pivot with
  | none => { e with width := e.width * factor, height := e.height * factor }
  | some piv =>
      { e with center_x := piv.x + (e.center_x - piv.x) * factor,
               center_y := piv.y + (e.center_y - piv.y) * factor,
               width := e.width * factor, height := e.height * factor }

/-- `Ellipse.copy`. -/
def Ellipse.copy (e : Ellipse) : Ellipse :=
  { e with style := { selected := false, line_color := e.style.line_color,
                      fill_color := e.style.fill_color,
                      line_width := e.style.line_width,
                      line_style := e.style.line_style } }

/-- `Ellipse.shear` (shapes.py 379-392): tessellates the ellipse into 36
boundary points, shears each, and becomes a `Polygon`. -/
noncomputable def Ellipse.shear (sx sy : ℝ) (e : Ellipse) : Polygon :=
  { points := (List.range 36).map fun (i : ℕ) =>
      let theta := 2 * Real.pi * (i : ℝ) / 36
      let x := e.center_x + e.width / 2 * Real.cos theta
      let y := e.center_y + e.height / 2 * Real.sin theta
      { x := x + sx * y, y := y + sy * x },
    style := e.style }

/-- `Circle.shear` (shapes.py 202-215): tessellates the circle into 36
boundary points at angles `2*pi*i/36`, shears each point with
`x' = x + shear_x*y`, `y' = y + shear_y*x`, and becomes a `Polygon`
(the Python code sets `self.points` and reassigns `self.__class__`). -/
noncomputable def Circle.shear (sx sy : ℝ) (c : Circle) : Polygon :=
  { points := (List.range 36).map fun (i : ℕ) =>
      let theta := 2 * Real.pi * (i : ℝ) / 36
      let x := c.center_x + c.radius * Real.cos theta
      let y := c.center_y + c.radius * Real.sin theta
      { x := x + sx * y, y := y + sy * x },
    style := c.style }

/-! ## Triangle (shapes.py lines 394-478) -/

/-- The state of a `Triangle`: its explicit point list plus style.  Once
constructed, only the point list is authoritative. -/
structure Triangle where
  points : List Pt
  style : Style

/-- Constructor `Triangle.__init__` (shapes.py 395-406): an equilateral
triangle built from the two drag points, with `center` the midpoint of
the drag points and `size` half the Euclidean drag distance. -/
noncomputable def Triangle.new (x1 y1 x2 y2 : ℝ) : Triangle :=
  let center_x := (x1 + x2) / 2
  let center_y := (y1 + y2) / 2
  let size := Real.sqrt ((x2 - x1) ^ 2 + (y2 - y1) ^ 2) / 2
  { points := [{ x := center_x, y := center_y - size },
               { x := center_x - size * 0.866, y := center_y + size * 0.5 },
               { x := center_x + size * 0.866, y := center_y + size * 0.5 }],
    style := defaultStyle }

/-- `Triangle.translate`. -/
def Triangle.translate (dx dy : ℝ) (t : Triangle) : Triangle :=
  { t with points := t.points.map fun q => { x := q.x + dx, y := q.y + dy } }

/-- `Triangle.scale`: identical code to `Polygon.scale` (centroid default
pivot, scaling formula on each point). -/
noncomputable def Triangle.scale (factor : ℝ) (pivot : Option Pt) (t : Triangle) :
    Option Triangle :=
  match pivot with
  | some c => some { t with points := t.points.map (scalePt factor c) }
  | none => (centroid t.points).map fun c =>
      { t with points := t.points.map (scalePt factor c) }

/-- `Triangle.rotate` (shapes.py 443-461): identical code to
`Polygon.rotate`. -/
noncomputable def Triangle.rotate (angle : ℝ) (pivot : Option Pt) (t : Triangle) :
    Option Triangle :=
  match pivot with
  | some c => some { t with points := t.points.map (rotPt angle c) }
  | none => (centroid t.points).map fun c =>
      { t with points := t.points.map (rotPt angle c) }

/-- `Triangle.copy` (shapes.py 463-470): dummy-constructs and then
overwrites the point list with a slice copy; all four style fields are
copied and `selected` is reset. -/
def Triangle.copy (t : Triangle) : Triangle :=
  { points := t.points,
    style := { selected := false, line_color := t.style.line_color,
               fill_color := t.style.fill_color,
               line_width := t.style.line_width,
               line_style := t.style.line_style } }

/-- `Triangle.shear`. -/
def Triangle.shear (sx sy : ℝ) (t : Triangle) : Triangle :=
  { t with points := t.points.map (shearPt sx sy) }

/-! ## Pentagon (shapes.py lines 480-555) -/

/-- The state of a `Pentagon`: center, radius and the derived point list
plus style.  After a shear the point list can disagree with
center+radius (the fields go stale). -/
structure Pentagon where
  center_x : ℝ
  center_y : ℝ
  radius : ℝ
  points : List Pt
  style : Style

/-- `Pentagon._generate_pentagon_points` (shapes.py 488-495): five
vertices at angles `i*2*pi/5 - pi/2`, starting from the top. -/
noncomputable def generate_pentagon_points (cx cy r : ℝ) : List Pt :=
  (List.range 5).map fun (i : ℕ) =>
    let angle := (i : ℝ) * 2 * Real.pi / 5 - Real.pi / 2
    { x := cx + r * Real.cos angle, y := cy + r * Real.sin angle }

/-- Constructor `Pentagon.__init__`. -/
noncomputable def Pentagon.new (cx cy r : ℝ) : Pentagon :=
  { center_x := cx, center_y := cy, radius := r,
    points := generate_pentagon_points cx cy r, style := defaultStyle }

/-- `Pentagon.translate`: moves the center and every point. -/
def Pentagon.translate (dx dy : ℝ) (p : Pentagon) : Pentagon :=
  { p with center_x := p.center_x + dx, center_y := p.center_y + dy,
           points := p.points.map fun q => { x := q.x + dx, y := q.y + dy } }

/-- `Pentagon.scale` (shapes.py 519-526): moves the center (explicit
pivot only), multiplies the radius, and REGENERATES the point list from
the new center and radius. -/
noncomputable def Pentagon.scale (factor : ℝ) (pivot : Option Pt) (p : Pentagon) :
    Pentagon :=
  match pivot with
  | none =>
      { p with radius := p.radius * factor,
               points := generate_pentagon_points p.center_x p.center_y
                 (p.radius * factor) }
  | some c =>
      let ncx := c.x + (p.center_x - c.x) * factor
      let ncy := c.y + (p.center_y - c.y) * factor
      { p with center_x := ncx, center_y := ncy, radius := p.radius * factor,
               points := generate_pentagon_points ncx ncy (p.radius * factor) }

/-- `Pentagon.rotate` (shapes.py 528-539): with a defaulted pivot the
center is untouched; with an explicit pivot the center is relocated by
the rotation formula.  Either way the point list is REGENERATED from
center+radius at the canonical orientation — the individual vertices are
never rotated. -/
noncomputable def Pentagon.rotate (angle : ℝ) (pivot : Option Pt) (p : Pentagon) :
    Pentagon :=
  match pivot with
  | none =>
      { p with points := generate_pentagon_points p.center_x p.center_y p.radius }
  | some c =>
      let nc := rotPt angle c { x := p.center_x, y := p.center_y }
      { p with center_x := nc.x, center_y := nc.y,
               points := generate_pentagon_points nc.x nc.y p.radius }

/-- `Pentagon.copy` (shapes.py 541-547): constructs a fresh
`Pentagon(center_x, center_y, radius)`, so the copy's point list is
regenerated from center+radius; the style fields are copied. -/
noncomputable def Pentagon.copy (p : Pentagon) : Pentagon :=
  { center_x := p.center_x, center_y := p.center_y, radius := p.radius,
    points := generate_pentagon_points p.center_x p.center_y p.radius,
    style := { selected := false, line_color := p.style.line_color,
               fill_color := p.style.fill_color,
               line_width := p.style.line_width,
               line_style := p.style.line_style } }

/-- `Pentagon.shear`: shears the point list in place; center and radius
are left untouched (they go stale). -/
def Pentagon.shear (sx sy : ℝ) (p : Pentagon) : Pentagon :=
  { p with points := p.points.map (shearPt sx sy) }

/-! ## Hexagon (shapes.py lines 557-632) -/

/-- The state of a `Hexagon`: same shape of state as `Pentagon`. -/
structure Hexagon where
  center_x : ℝ
  center_y : ℝ
  radius : ℝ
  points : List Pt
  style : Style

/-- `Hexagon._generate_hexagon_points` (shapes.py 565-572): six vertices
at angles `i*2*pi/6`, starting at angle 0. -/
noncomputable def generate_hexagon_points (cx cy r : ℝ) : List Pt :=
  (List.range 6).map fun (i : ℕ) =>
    let angle := (i : ℝ) * 2 * Real.pi / 6
    { x := cx + r * Real.cos angle, y := cy + r * Real.sin angle }

/-- Constructor `Hexagon.__init__`. -/
noncomputable def Hexagon.new (cx cy r : ℝ) : Hexagon :=
  { center_x := cx, center_y := cy, radius := r,
    points := generate_hexagon_points cx cy r, style := defaultStyle }

/-- `Hexagon.translate`. -/
def Hexagon.translate (dx dy : ℝ) (h : Hexagon) : Hexagon :=
  { h with center_x := h.center_x + dx, center_y := h.center_y + dy,
           points := h.points.map fun q => { x := q.x + dx, y := q.y + dy } }

/-- `Hexagon.scale` (shapes.py 596-603): same policy as `Pentagon.scale`:
the point list is regenerated from center+radius. -/
noncomputable def Hexagon.scale (factor : ℝ) (pivot : Option Pt) (h : Hexagon) :
    Hexagon :=
  match pivot with
  | none =>
      { h with radius := h.radius * factor,
               points := generate_hexagon_points h.center_x h.center_y
                 (h.radius * factor) }
  | some c =>
      let ncx := c.x + (h.center_x - c.x) * factor
      let ncy := c.y + (h.center_y - c.y) * factor
      { h with center_x := ncx, center_y := ncy, radius := h.radius * factor,
               points := generate_hexagon_points ncx ncy (h.radius * factor) }

/-- `Hexagon.rotate` (shapes.py 605-616): same policy as
`Pentagon.rotate`: the point list is regenerated, never rotated
pointwise. -/
noncomputable def Hexagon.rotate (angle : ℝ) (pivot : Option Pt) (h : Hexagon) :
    Hexagon :=
  match pivot with
  | none =>
      { h with points := generate_hexagon_points h.center_x h.center_y h.radius }
  | some c =>
      let nc := rotPt angle c { x := h.center_x, y := h.center_y }
      { h with center_x := nc.x, center_y := nc.y,
               points := generate_hexagon_points nc.x nc.y h.radius }

/-- `Hexagon.copy`: fresh `Hexagon(center_x, center_y, radius)` with
regenerated points; style fields copied. -/
noncomputable def Hexagon.copy (h : Hexagon) : Hexagon :=
  { center_x := h.center_x, center_y := h.center_y, radius := h.radius,
    points := generate_hexagon_points h.center_x h.center_y h.radius,
    style := { selected := false, line_color := h.style.line_color,
               fill_color := h.style.fill_color,
               line_width := h.style.line_width,
               line_style := h.style.line_style } }

/-- `Hexagon.shear`: shears the point list in place. -/
def Hexagon.shear (sx sy : ℝ) (h : Hexagon) : Hexagon :=
  { h with points := h.points.map (shearPt sx sy) }

/-! ## The closed set of shape variants -/

/-- The closed sum of shape variants.  Python's in-place
`self.__class__ = Polygon` reassignment is modelled by a shear operation
returning a value in a different constructor of this sum. -/
inductive Shape where
  | line : Line → Shape
  | circle : Circle → Shape
  | rect : Rectangle → Shape
  | ellipse : Ellipse → Shape
  | triangle : Triangle → Shape
  | pentagon : Pentagon → Shape
  | hexagon : Hexagon → Shape
  | polygon : Polygon → Shape

/-- Variant-changing shear dispatch: Circle, Rectangle and Ellipse
become Polygon; the point-native variants shear in place and keep their
identity. -/
noncomputable def Shape.shear (sx sy : ℝ) : Shape → Shape
  | .line l => .line (l.shear sx sy)
  | .circle c => .polygon (c.shear sx sy)
  | .rect r => .polygon (r.shear sx sy)
  | .ellipse e => .polygon (e.shear sx sy)
  | .triangle t => .triangle (t.shear sx sy)
  | .pentagon p => .pentagon (p.shear sx sy)
  | .hexagon h => .hexagon (h.shear sx sy)
  | .polygon p => .polygon (p.shear sx sy)

/-- The capability check performed by `PaintApp.shear_transform`
(main.py 262): `hasattr(self.selected_shape, 'shear')`.  Every variant
has a `shear` attribute (the abstract base class defines a default), so
the check succeeds for each of the eight variants. -/
def Shape.has_shear_attr : Shape → Bool
  | .line _ => true
  | .circle _ => true
  | .rect _ => true
  | .ellipse _ => true
  | .triangle _ => true
  | .pentagon _ => true
  | .hexagon _ => true
  | .polygon _ => true

/-- Discriminator for the Polygon variant. -/
def Shape.is_polygon : Shape → Bool
  | .polygon _ => true
  | _ => false

/-- The drawing tools of the toolbar (main.py 62-64). -/
inductive Tool where
  | pointer
  | draw
  | line
  | circle
  | rectangle
  | ellipse
  | triangle
  | pentagon
  | hexagon
  | polygon

/-- `DrawingCanvas.create_shape` (canvas.py 160-182): the shape factory
keyed on the current tool and the two drag points; returns `None` for
tools that do not create a two-point shape. -/
noncomputable def create_shape (tool : Tool) (x1 y1 x2 y2 : ℝ) : Option Shape :=
  match tool with
  | .line => some (.line (Line.new x1 y1 x2 y2))
  | .circle =>
      some (.circle { center_x := x1, center_y := y1,
                      radius := Real.sqrt ((x2 - x1) ^ 2 + (y2 - y1) ^ 2),
                      style := defaultStyle })
  | .rectangle => some (.rect (Rectangle.new x1 y1 x2 y2))
  | .ellipse =>
      some (.ellipse { center_x := (x1 + x2) / 2, center_y := (y1 + y2) / 2,
                       width := |x2 - x1|, height := |y2 - y1|,
                       style := defaultStyle })
  | .triangle => some (.triangle (Triangle.new x1 y1 x2 y2))
  | .pentagon =>
      some (.pentagon (Pentagon.new x1 y1
        (Real.sqrt ((x2 - x1) ^ 2 + (y2 - y1) ^ 2))))
  | .hexagon =>
      some (.hexagon (Hexagon.new x1 y1
        (Real.sqrt ((x2 - x1) ^ 2 + (y2 - y1) ^ 2))))
  | _ => none

/-! ## Helper lemmas about the shared affine formulas -/

theorem Pt.ext_xy {p q : Pt} (hx : p.x = q.x) (hy : p.y = q.y) : p = q := by
  cases p; cases q; simp_all

/-- The source's rotation formula agrees with the spec's
`pivot + R(angle)(p - pivot)`. -/
theorem rotPt_eq_specRotate (angle : ℝ) (c p : Pt) :
    rotPt angle c p = specRotate c angle p := by
  apply Pt.ext_xy <;> simp [rotPt, specRotate] <;> ring

/-- Rotating by angle 0 fixes every point. -/
theorem rotPt_zero (c p : Pt) : rotPt 0 c p = p := by
  apply Pt.ext_xy <;> (simp only [rotPt, Real.cos_zero, Real.sin_zero]; ring)

/-- Rotating by `-angle` undoes rotating by `angle` about the same
pivot (exactly, over ℝ). -/
theorem rotPt_neg_rotPt (angle : ℝ) (c p : Pt) :
    rotPt (-angle) c (rotPt angle c p) = p := by
  have h := Real.sin_sq_add_cos_sq angle
  apply Pt.ext_xy
  · simp only [rotPt, Real.cos_neg, Real.sin_neg]
    linear_combination (p.x - c.x) * h
  · simp only [rotPt, Real.cos_neg, Real.sin_neg]
    linear_combination (p.y - c.y) * h

/-- Scaling by factor 1 fixes every point. -/
theorem scalePt_one (c p : Pt) : scalePt 1 c p = p := by
  apply Pt.ext_xy <;> (simp only [scalePt]; ring)

/-- Scaling by factor 1 fixes a point list. -/
theorem map_scalePt_one (c : Pt) (ps : List Pt) : ps.map (scalePt 1 c) = ps := by
  induction ps with
  | nil => rfl
  | cons q qs ih => simp [scalePt_one, ih]

/-- Rotating a point list by 0 fixes it. -/
theorem map_rotPt_zero (c : Pt) (ps : List Pt) : ps.map (rotPt 0 c) = ps := by
  induction ps with
  | nil => rfl
  | cons q qs ih => simp [rotPt_zero, ih]

/-- Rotating a point list by `-angle` after `angle` restores it. -/
theorem map_rotPt_neg_rotPt (angle : ℝ) (c : Pt) (ps : List Pt) :
    (ps.map (rotPt angle c)).map (rotPt (-angle) c) = ps := by
  induction ps with
  | nil => rfl
  | cons q qs ih => simp [rotPt_neg_rotPt, ih]

/-- Composition form of `map_rotPt_neg_rotPt`. -/
theorem map_comp_rotPt_neg_rotPt (angle : ℝ) (c : Pt) (ps : List Pt) :
    ps.map (rotPt (-angle) c ∘ rotPt angle c) = ps := by
  induction ps with
  | nil => rfl
  | cons q qs ih => simp [Function.comp, rotPt_neg_rotPt, ih]

/-- The functions `rotPt angle c` and `specRotate c angle` agree. -/
theorem rotPt_fun_eq_specRotate (angle : ℝ) (c : Pt) :
    rotPt angle c = specRotate c angle :=
  funext fun p => rotPt_eq_specRotate angle c p

/-- The first generated pentagon vertex is the top vertex
`(cx, cy - r)` (angle `-pi/2`). -/
theorem generate_pentagon_points_head (cx cy r : ℝ) :
    (generate_pentagon_points cx cy r).head? = some { x := cx, y := cy - r } := by
  have h0 : (generate_pentagon_points cx cy r).head? =
      some { x := cx + r * Real.cos (((0 : ℕ) : ℝ) * 2 * Real.pi / 5 - Real.pi / 2),
             y := cy + r * Real.sin (((0 : ℕ) : ℝ) * 2 * Real.pi / 5 - Real.pi / 2) } := rfl
  have ha : ((0 : ℕ) : ℝ) * 2 * Real.pi / 5 - Real.pi / 2 = -(Real.pi / 2) := by
    push_cast
    ring
  rw [h0, ha, Option.some.injEq]
  apply Pt.ext_xy <;>
    simp only [Real.cos_neg, Real.sin_neg, Real.cos_pi_div_two, Real.sin_pi_div_two] <;>
    ring

/-- The first generated hexagon vertex is `(cx + r, cy)` (angle 0). -/
theorem generate_hexagon_points_head (cx cy r : ℝ) :
    (generate_hexagon_points cx cy r).head? = some { x := cx + r, y := cy } := by
  have h0 : (generate_hexagon_points cx cy r).head? =
      some { x := cx + r * Real.cos (((0 : ℕ) : ℝ) * 2 * Real.pi / 6),
             y := cy + r * Real.sin (((0 : ℕ) : ℝ) * 2 * Real.pi / 6) } := rfl
  have ha : ((0 : ℕ) : ℝ) * 2 * Real.pi / 6 = 0 := by
    push_cast
    ring
  rw [h0, ha, Option.some.injEq]
  apply Pt.ext_xy <;>
    simp only [Real.cos_zero, Real.sin_zero] <;>
    ring

/-- For a nonempty point list the centroid is defined. -/
theorem centroid_isSome {ps : List Pt} (h : ps ≠ []) :
    ∃ c, centroid ps = some c := by
  have hl : ps.length ≠ 0 := fun h0 => h (List.length_eq_zero.mp h0)
  refine ⟨{ x := (ps.map Pt.x).sum / ps.length,
            y := (ps.map Pt.y).sum / ps.length }, ?_⟩
  rw [centroid, if_neg hl]

/-! ## Scale-by-one identities per variant -/

theorem line_scale_one (pivot : Option Pt) (l : Line) : Line.scale 1 pivot l = l := by
  cases l
  cases pivot <;>
    (simp only [Line.scale, Option.getD, mul_one, Line.mk.injEq, and_true]
     exact ⟨by ring, by ring, by ring, by ring⟩)

theorem circle_scale_one (pivot : Option Pt) (c : Circle) : Circle.scale 1 pivot c = c := by
  cases c
  cases pivot with
  | none => simp only [Circle.scale, mul_one]
  | some piv =>
      simp only [Circle.scale, mul_one, Circle.mk.injEq, and_true]
      exact ⟨by ring, by ring⟩

theorem rectangle_scale_one (pivot : Option Pt) (r : Rectangle) :
    Rectangle.scale 1 pivot r = r := by
  cases r
  cases pivot <;>
    (simp only [Rectangle.scale, Option.getD, mul_one, Rectangle.mk.injEq, and_true]
     exact ⟨by ring, by ring, by ring, by ring⟩)

theorem ellipse_scale_one (pivot : Option Pt) (e : Ellipse) : Ellipse.scale 1 pivot e = e := by
  cases e
  cases pivot with
  | none => simp only [Ellipse.scale, mul_one]
  | some piv =>
      simp only [Ellipse.scale, mul_one, Ellipse.mk.injEq, and_true]
      exact ⟨by ring, by ring⟩

theorem triangle_scale_one_pivot (c : Pt) (t : Triangle) :
    Triangle.scale 1 (some c) t = some t := by
  simp [Triangle.scale, map_scalePt_one]

theorem triangle_scale_one_default (t : Triangle) (h : t.points ≠ []) :
    Triangle.scale 1 none t = some t := by
  obtain ⟨c, hc⟩ := centroid_isSome h
  simp [Triangle.scale, hc, map_scalePt_one]

theorem polygon_scale_one_pivot (c : Pt) (p : Polygon) :
    Polygon.scale 1 (some c) p = some p := by
  simp [Polygon.scale, map_scalePt_one]

theorem polygon_scale_one_default (p : Polygon) (h : p.points ≠ []) :
    Polygon.scale 1 none p = some p := by
  obtain ⟨c, hc⟩ := centroid_isSome h
  simp [Polygon.scale, hc, map_scalePt_one]

theorem pentagon_scale_one (pivot : Option Pt) (p : Pentagon)
    (hp : p.points = generate_pentagon_points p.center_x p.center_y p.radius) :
    Pentagon.scale 1 pivot p = p := by
  cases p with
  | mk cx cy r pts s =>
    cases pivot with
    | none =>
        simp only [Pentagon.scale, mul_one, Pentagon.mk.injEq, and_true]
        exact ⟨trivial, trivial, trivial, hp.symm⟩
    | some c =>
        simp only [Pentagon.scale, mul_one]
        have hx : c.x + (cx - c.x) = cx := by ring
        have hy : c.y + (cy - c.y) = cy := by ring
        rw [hx, hy, ← hp]

theorem hexagon_scale_one (pivot : Option Pt) (h : Hexagon)
    (hp : h.points = generate_hexagon_points h.center_x h.center_y h.radius) :
    Hexagon.scale 1 pivot h = h := by
  cases h with
  | mk cx cy r pts s =>
    cases pivot with
    | none =>
        simp only [Hexagon.scale, mul_one, Hexagon.mk.injEq, and_true]
        exact ⟨trivial, trivial, trivial, hp.symm⟩
    | some c =>
        simp only [Hexagon.scale, mul_one]
        have hx : c.x + (cx - c.x) = cx := by ring
        have hy : c.y + (cy - c.y) = cy := by ring
        rw [hx, hy, ← hp]

/-! ## Rotate identities per variant -/

theorem Pt.eta (p : Pt) : ({ x := p.x, y := p.y } : Pt) = p := rfl

theorem line_rotate_zero (pivot : Option Pt) (l : Line) : Line.rotate 0 pivot l = l := by
  cases l
  cases pivot <;> simp [Line.rotate, rotPt_zero]

theorem line_rotate_inv (angle : ℝ) (c : Pt) (l : Line) :
    Line.rotate (-angle) (some c) (Line.rotate angle (some c) l) = l := by
  cases l
  simp [Line.rotate, Pt.eta, rotPt_neg_rotPt]

theorem triangle_rotate_zero_pivot (c : Pt) (t : Triangle) :
    Triangle.rotate 0 (some c) t = some t := by
  simp [Triangle.rotate, map_rotPt_zero]

theorem triangle_rotate_zero_default (t : Triangle) (h : t.points ≠ []) :
    Triangle.rotate 0 none t = some t := by
  obtain ⟨c, hc⟩ := centroid_isSome h
  simp [Triangle.rotate, hc, map_rotPt_zero]

theorem triangle_rotate_inv (angle : ℝ) (c : Pt) (t : Triangle) :
    (Triangle.rotate angle (some c) t).bind (Triangle.rotate (-angle) (some c)) =
      some t := by
  simp [Triangle.rotate, map_rotPt_neg_rotPt, map_comp_rotPt_neg_rotPt]

theorem polygon_rotate_zero_pivot (c : Pt) (p : Polygon) :
    Polygon.rotate 0 (some c) p = some p := by
  simp [Polygon.rotate, map_rotPt_zero]

theorem polygon_rotate_zero_default (p : Polygon) (h : p.points ≠ []) :
    Polygon.rotate 0 none p = some p := by
  obtain ⟨c, hc⟩ := centroid_isSome h
  simp [Polygon.rotate, hc, map_rotPt_zero]

theorem polygon_rotate_inv (angle : ℝ) (c : Pt) (p : Polygon) :
    (Polygon.rotate angle (some c) p).bind (Polygon.rotate (-angle) (some c)) =
      some p := by
  simp [Polygon.rotate, map_rotPt_neg_rotPt, map_comp_rotPt_neg_rotPt]

theorem pentagon_rotate_zero (pivot : Option Pt) (p : Pentagon)
    (hp : p.points = generate_pentagon_points p.center_x p.center_y p.radius) :
    Pentagon.rotate 0 pivot p = p := by
  cases p with
  | mk cx cy r pts s =>
    cases pivot with
    | none =>
        simp only [Pentagon.rotate] at *
        rw [← hp]
    | some c =>
        simp only [Pentagon.rotate, rotPt_zero] at *
        rw [← hp]

theorem pentagon_rotate_inv (angle : ℝ) (c : Pt) (p : Pentagon)
    (hp : p.points = generate_pentagon_points p.center_x p.center_y p.radius) :
    Pentagon.rotate (-angle) (some c) (Pentagon.rotate angle (some c) p) = p := by
  cases p with
  | mk cx cy r pts s =>
    simp only [Pentagon.rotate, Pt.eta, rotPt_neg_rotPt] at *
    rw [← hp]

theorem hexagon_rotate_zero (pivot : Option Pt) (h : Hexagon)
    (hp : h.points = generate_hexagon_points h.center_x h.center_y h.radius) :
    Hexagon.rotate 0 pivot h = h := by
  cases h with
  | mk cx cy r pts s =>
    cases pivot with
    | none =>
        simp only [Hexagon.rotate] at *
        rw [← hp]
    | some c =>
        simp only [Hexagon.rotate, rotPt_zero] at *
        rw [← hp]

theorem hexagon_rotate_inv (angle : ℝ) (c : Pt) (h : Hexagon)
    (hp : h.points = generate_hexagon_points h.center_x h.center_y h.radius) :
    Hexagon.rotate (-angle) (some c) (Hexagon.rotate angle (some c) h) = h := by
  cases h with
  | mk cx cy r pts s =>
    simp only [Hexagon.rotate, Pt.eta, rotPt_neg_rotPt] at *
    rw [← hp]

/-! ## Claim C1 -/

/-- C1 (amended): rotate maps each defining point `p` to
`pivot + R(angle)(p - pivot)` for the Triangle and Polygon variants, for
every angle and every pivot (explicit, or defaulted to the centroid when
the centroid is defined).  Pentagon and Hexagon do NOT rotate their
points: with an explicit pivot they relocate only the center by that
formula, and in either pivot mode they regenerate the vertex list from
center+radius at the canonical orientation. -/
theorem C1_rotate_formula :
    (∀ (angle : ℝ) (c : Pt) (t : Triangle),
        Triangle.rotate angle (some c) t =
          some { t with points := t.points.map (specRotate c angle) }) ∧
    (∀ (angle : ℝ) (c : Pt) (p : Polygon),
        Polygon.rotate angle (some c) p =
          some { p with points := p.points.map (specRotate c angle) }) ∧
    (∀ (angle : ℝ) (t : Triangle) (c : Pt), centroid t.points = some c →
        Triangle.rotate angle none t =
          some { t with points := t.points.map (specRotate c angle) }) ∧
    (∀ (angle : ℝ) (p : Polygon) (c : Pt), centroid p.points = some c →
        Polygon.rotate angle none p =
          some { p with points := p.points.map (specRotate c angle) }) ∧
    (∀ (angle : ℝ) (c : Pt) (p : Pentagon),
        Pentagon.rotate angle (some c) p =
          { p with
            center_x := (specRotate c angle { x := p.center_x, y := p.center_y }).x,
            center_y := (specRotate c angle { x := p.center_x, y := p.center_y }).y,
            points := generate_pentagon_points
              (specRotate c angle { x := p.center_x, y := p.center_y }).x
              (specRotate c angle { x := p.center_x, y := p.center_y }).y
              p.radius }) ∧
    (∀ (angle : ℝ) (c : Pt) (h : Hexagon),
        Hexagon.rotate angle (some c) h =
          { h with
            center_x := (specRotate c angle { x := h.center_x, y := h.center_y }).x,
            center_y := (specRotate c angle { x := h.center_x, y := h.center_y }).y,
            points := generate_hexagon_points
              (specRotate c angle { x := h.center_x, y := h.center_y }).x
              (specRotate c angle { x := h.center_x, y := h.center_y }).y
              h.radius }) := by
  refine ⟨?_, ?_, ?_, ?_, ?_, ?_⟩
  · intro angle c t
    simp [Triangle.rotate, rotPt_fun_eq_specRotate]
  · intro angle c p
    simp [Polygon.rotate, rotPt_fun_eq_specRotate]
  · intro angle t c hc
    simp [Triangle.rotate, hc, rotPt_fun_eq_specRotate]
  · intro angle p c hc
    simp [Polygon.rotate, hc, rotPt_fun_eq_specRotate]
  · intro angle c p
    simp [Pentagon.rotate, rotPt_fun_eq_specRotate]
  · intro angle c h
    simp [Hexagon.rotate, rotPt_fun_eq_specRotate]

/-- Witness for C1: the defaulted-pivot parts applied to a concrete
triangle and a concrete polygon whose centroids are `(1, 1)`. -/
theorem C1_rotate_formula_witness :
    Triangle.rotate 0 none
        { points := [⟨0, 0⟩, ⟨3, 0⟩, ⟨0, 3⟩], style := defaultStyle } =
      some { points := ([⟨0, 0⟩, ⟨3, 0⟩, ⟨0, 3⟩] : List Pt).map
               (specRotate ⟨1, 1⟩ 0), style := defaultStyle } ∧
    Polygon.rotate 0 none
        { points := [⟨0, 0⟩, ⟨2, 0⟩, ⟨2, 2⟩, ⟨0, 2⟩], style := defaultStyle } =
      some { points := ([⟨0, 0⟩, ⟨2, 0⟩, ⟨2, 2⟩, ⟨0, 2⟩] : List Pt).map
               (specRotate ⟨1, 1⟩ 0), style := defaultStyle } := by
  obtain ⟨-, -, h3, h4, -, -⟩ := C1_rotate_formula
  constructor
  · exact h3 0 _ ⟨1, 1⟩ (by norm_num [centroid, Pt.mk.injEq])
  · exact h4 0 _ ⟨1, 1⟩ (by norm_num [centroid, Pt.mk.injEq])

/-- Counterexample for C1 as stated: rotating the unit Pentagon by π
about its defaulted pivot (its own center) regenerates the same vertex
list, whereas the claimed pointwise rotation formula would move the top
vertex from `(0, -1)` to `(0, 1)`. -/
theorem C1_counterexample :
    Pentagon.rotate Real.pi none (Pentagon.new 0 0 1) ≠
      { Pentagon.new 0 0 1 with
        points := (Pentagon.new 0 0 1).points.map
          (specRotate { x := 0, y := 0 } Real.pi) } := by
  intro h
  have hp := congrArg (fun q => Pentagon.points q) h
  simp only [Pentagon.rotate, Pentagon.new] at hp
  have hh := congrArg List.head? hp
  rw [generate_pentagon_points_head, List.head?_map,
    generate_pentagon_points_head] at hh
  norm_num [specRotate, Real.cos_pi, Real.sin_pi, Pt.mk.injEq] at hh

/-! ## Claim C2 -/

/-- C2 (amended): scale by factor 1.0 about any pivot is the identity for
Line, Circle, Rectangle and Ellipse in every state, for Triangle and
Polygon in every state (for the defaulted pivot: every state with a
nonempty point list), and for Pentagon and Hexagon exactly in the states
whose point list is the canonical generation from center+radius — after
a shear (stale points) their scale regenerates the points and is NOT the
identity. -/
theorem C2_scale_one_identity :
    (∀ (pivot : Option Pt) (l : Line), Line.scale 1 pivot l = l) ∧
    (∀ (pivot : Option Pt) (c : Circle), Circle.scale 1 pivot c = c) ∧
    (∀ (pivot : Option Pt) (r : Rectangle), Rectangle.scale 1 pivot r = r) ∧
    (∀ (pivot : Option Pt) (e : Ellipse), Ellipse.scale 1 pivot e = e) ∧
    (∀ (c : Pt) (t : Triangle), Triangle.scale 1 (some c) t = some t) ∧
    (∀ t : Triangle, t.points ≠ [] → Triangle.scale 1 none t = some t) ∧
    (∀ (c : Pt) (p : Polygon), Polygon.scale 1 (some c) p = some p) ∧
    (∀ p : Polygon, p.points ≠ [] → Polygon.scale 1 none p = some p) ∧
    (∀ (pivot : Option Pt) (p : Pentagon),
        p.points = generate_pentagon_points p.center_x p.center_y p.radius →
        Pentagon.scale 1 pivot p = p) ∧
    (∀ (pivot : Option Pt) (h : Hexagon),
        h.points = generate_hexagon_points h.center_x h.center_y h.radius →
        Hexagon.scale 1 pivot h = h) :=
  ⟨line_scale_one, circle_scale_one, rectangle_scale_one, ellipse_scale_one,
   triangle_scale_one_pivot, triangle_scale_one_default, polygon_scale_one_pivot,
   polygon_scale_one_default, pentagon_scale_one, hexagon_scale_one⟩

/-- Witness for C2: the hypothesis-carrying parts applied to concrete
shapes (nonempty point lists; canonically generated Pentagon/Hexagon). -/
theorem C2_scale_one_identity_witness :
    Triangle.scale 1 none { points := [⟨0, 0⟩, ⟨4, 0⟩, ⟨0, 4⟩], style := defaultStyle } =
      some { points := [⟨0, 0⟩, ⟨4, 0⟩, ⟨0, 4⟩], style := defaultStyle } ∧
    Polygon.scale 1 none { points := [⟨1, 1⟩, ⟨5, 1⟩, ⟨3, 4⟩], style := defaultStyle } =
      some { points := [⟨1, 1⟩, ⟨5, 1⟩, ⟨3, 4⟩], style := defaultStyle } ∧
    Pentagon.scale 1 none (Pentagon.new 2 3 4) = Pentagon.new 2 3 4 ∧
    Hexagon.scale 1 (some ⟨7, 7⟩) (Hexagon.new 2 3 4) = Hexagon.new 2 3 4 := by
  obtain ⟨-, -, -, -, -, h6, -, h8, h9, h10⟩ := C2_scale_one_identity
  exact ⟨h6 _ (by simp), h8 _ (by simp), h9 none _ rfl, h10 (some ⟨7, 7⟩) _ rfl⟩

/-- Counterexample for C2 as stated: a Pentagon sheared with
coefficients `(1, 0)` is a reachable state, and scaling it by 1.0 with a
defaulted pivot regenerates the canonical vertices, moving the sheared
top vertex `(-1, -1)` back to `(0, -1)`. -/
theorem C2_counterexample :
    Pentagon.scale 1 none (Pentagon.shear 1 0 (Pentagon.new 0 0 1)) ≠
      Pentagon.shear 1 0 (Pentagon.new 0 0 1) := by
  intro h
  have hp := congrArg (fun q => Pentagon.points q) h
  simp only [Pentagon.scale, Pentagon.shear, Pentagon.new] at hp
  have hh := congrArg List.head? hp
  rw [generate_pentagon_points_head, List.head?_map,
    generate_pentagon_points_head] at hh
  norm_num [shearPt, Pt.mk.injEq] at hh

/-! ## Claim C3 -/

/-- C3 (amended): rotate by 0 is the identity and rotate by `angle` then
by `-angle` about the same explicit pivot restores the original
coordinates, exactly over ℝ, for Line, Triangle and Polygon in every
state (defaulted-pivot rotate-by-0 requires a nonempty point list for
Triangle/Polygon), and for Pentagon and Hexagon exactly in the states
whose point list is the canonical generation from center+radius — after
a shear their rotate regenerates the points and is NOT the identity. -/
theorem C3_rotate_zero_and_inverse :
    (∀ (pivot : Option Pt) (l : Line), Line.rotate 0 pivot l = l) ∧
    (∀ (angle : ℝ) (c : Pt) (l : Line),
        Line.rotate (-angle) (some c) (Line.rotate angle (some c) l) = l) ∧
    (∀ (c : Pt) (t : Triangle), Triangle.rotate 0 (some c) t = some t) ∧
    (∀ t : Triangle, t.points ≠ [] → Triangle.rotate 0 none t = some t) ∧
    (∀ (angle : ℝ) (c : Pt) (t : Triangle),
        (Triangle.rotate angle (some c) t).bind
          (Triangle.rotate (-angle) (some c)) = some t) ∧
    (∀ (c : Pt) (p : Polygon), Polygon.rotate 0 (some c) p = some p) ∧
    (∀ p : Polygon, p.points ≠ [] → Polygon.rotate 0 none p = some p) ∧
    (∀ (angle : ℝ) (c : Pt) (p : Polygon),
        (Polygon.rotate angle (some c) p).bind
          (Polygon.rotate (-angle) (some c)) = some p) ∧
    (∀ (pivot : Option Pt) (p : Pentagon),
        p.points = generate_pentagon_points p.center_x p.center_y p.radius →
        Pentagon.rotate 0 pivot p = p) ∧
    (∀ (angle : ℝ) (c : Pt) (p : Pentagon),
        p.points = generate_pentagon_points p.center_x p.center_y p.radius →
        Pentagon.rotate (-angle) (some c) (Pentagon.rotate angle (some c) p) = p) ∧
    (∀ (pivot : Option Pt) (h : Hexagon),
        h.points = generate_hexagon_points h.center_x h.center_y h.radius →
        Hexagon.rotate 0 pivot h = h) ∧
    (∀ (angle : ℝ) (c : Pt) (h : Hexagon),
        h.points = generate_hexagon_points h.center_x h.center_y h.radius →
        Hexagon.rotate (-angle) (some c) (Hexagon.rotate angle (some c) h) = h) :=
  ⟨line_rotate_zero, line_rotate_inv, triangle_rotate_zero_pivot,
   triangle_rotate_zero_default, triangle_rotate_inv, polygon_rotate_zero_pivot,
   polygon_rotate_zero_default, polygon_rotate_inv, pentagon_rotate_zero,
   pentagon_rotate_inv, hexagon_rotate_zero, hexagon_rotate_inv⟩

/-- Witness for C3: the hypothesis-carrying parts applied to concrete
shapes. -/
theorem C3_rotate_zero_and_inverse_witness :
    Triangle.rotate 0 none { points := [⟨0, 0⟩, ⟨6, 0⟩, ⟨0, 6⟩], style := defaultStyle } =
      some { points := [⟨0, 0⟩, ⟨6, 0⟩, ⟨0, 6⟩], style := defaultStyle } ∧
    Polygon.rotate 0 none { points := [⟨0, 0⟩, ⟨2, 0⟩, ⟨1, 3⟩], style := defaultStyle } =
      some { points := [⟨0, 0⟩, ⟨2, 0⟩, ⟨1, 3⟩], style := defaultStyle } ∧
    Pentagon.rotate 0 none (Pentagon.new 1 2 3) = Pentagon.new 1 2 3 ∧
    Pentagon.rotate (-Real.pi) (some ⟨0, 0⟩)
      (Pentagon.rotate Real.pi (some ⟨0, 0⟩) (Pentagon.new 1 2 3)) =
      Pentagon.new 1 2 3 ∧
    Hexagon.rotate 0 (some ⟨5, 5⟩) (Hexagon.new 1 2 3) = Hexagon.new 1 2 3 ∧
    Hexagon.rotate (-1) (some ⟨0, 0⟩)
      (Hexagon.rotate 1 (some ⟨0, 0⟩) (Hexagon.new 1 2 3)) =
      Hexagon.new 1 2 3 := by
  obtain ⟨-, -, -, h4, -, -, h7, -, h9, h10, h11, h12⟩ := C3_rotate_zero_and_inverse
  exact ⟨h4 _ (by simp), h7 _ (by simp), h9 none _ rfl, h10 Real.pi ⟨0, 0⟩ _ rfl,
         h11 (some ⟨5, 5⟩) _ rfl, h12 1 ⟨0, 0⟩ _ rfl⟩

/-- Counterexample for C3 as stated: a Hexagon sheared with coefficients
`(0, 1)` is a reachable state, and rotating it by 0 with a defaulted
pivot regenerates the canonical vertices, moving the sheared first
vertex `(1, 1)` back to `(1, 0)`. -/
theorem C3_counterexample :
    Hexagon.rotate 0 none (Hexagon.shear 0 1 (Hexagon.new 0 0 1)) ≠
      Hexagon.shear 0 1 (Hexagon.new 0 0 1) := by
  intro h
  have hp := congrArg (fun q => Hexagon.points q) h
  simp only [Hexagon.rotate, Hexagon.shear, Hexagon.new] at hp
  have hh := congrArg List.head? hp
  rw [generate_hexagon_points_head, List.head?_map,
    generate_hexagon_points_head] at hh
  norm_num [shearPt, Pt.mk.injEq] at hh

/-! ## Claim C4 -/

/-- C4 (amended): `copy` returns a clone agreeing with the original on
the defining geometry, the point list, the stroke color, the stroke
width and the dash style for every variant, and on the fill color for
every variant except Line, whose copy resets the fill color to the empty
string; Rectangle's copy re-normalizes the corner fields with min/max
(so it preserves them verbatim exactly when the corners are normalized,
`x1 ≤ x2` and `y1 ≤ y2` — denormalized states are reachable via a
negative-factor scale); Pentagon and Hexagon copies REGENERATE the point
list from center+radius (equal to the original's points only in
canonical, un-sheared states).  The clone is value-independent (point
lists are copied, and the model's pure values alias nothing). -/
theorem C4_copy_fields :
    (∀ l : Line, Line.copy l =
      { l with style := { l.style with selected := false, fill_color := "" } }) ∧
    (∀ c : Circle, Circle.copy c =
      { c with style := { c.style with selected := false } }) ∧
    (∀ r : Rectangle, Rectangle.copy r =
      { x1 := min r.x1 r.x2, y1 := min r.y1 r.y2,
        x2 := max r.x1 r.x2, y2 := max r.y1 r.y2,
        style := { r.style with selected := false } }) ∧
    (∀ r : Rectangle, r.x1 ≤ r.x2 → r.y1 ≤ r.y2 →
      Rectangle.copy r = { r with style := { r.style with selected := false } }) ∧
    (∀ e : Ellipse, Ellipse.copy e =
      { e with style := { e.style with selected := false } }) ∧
    (∀ t : Triangle, Triangle.copy t =
      { t with style := { t.style with selected := false } }) ∧
    (∀ p : Polygon, Polygon.copy p =
      { p with style := { p.style with selected := false } }) ∧
    (∀ p : Pentagon, Pentagon.copy p =
      { p with points := generate_pentagon_points p.center_x p.center_y p.radius,
               style := { p.style with selected := false } }) ∧
    (∀ h : Hexagon, Hexagon.copy h =
      { h with points := generate_hexagon_points h.center_x h.center_y h.radius,
               style := { h.style with selected := false } }) := by
  refine ⟨fun _ => rfl, fun _ => rfl, fun _ => rfl, ?_, fun _ => rfl,
    fun _ => rfl, fun _ => rfl, fun _ => rfl, fun _ => rfl⟩
  intro r hx hy
  simp only [Rectangle.copy]
  rw [min_eq_left hx, min_eq_left hy, max_eq_right hx, max_eq_right hy]

/-- Witness for C4: the normalized-Rectangle part applied to a concrete
rectangle with `x1 ≤ x2` and `y1 ≤ y2`. -/
theorem C4_copy_fields_witness :
    Rectangle.copy { x1 := 1, y1 := 1, x2 := 3, y2 := 4, style := defaultStyle } =
      { x1 := 1, y1 := 1, x2 := 3, y2 := 4,
        style := { defaultStyle with selected := false } } :=
  C4_copy_fields.2.2.2.1
    { x1 := 1, y1 := 1, x2 := 3, y2 := 4, style := defaultStyle }
    (by norm_num) (by norm_num)

/-- Counterexample for C4 as stated: a Line with fill color "red" loses
it on copy; a sheared Pentagon's copy regenerates the canonical vertices
instead of the sheared ones; and the copy of a Rectangle denormalized by
a negative-factor scale swaps the corner fields back. -/
theorem C4_counterexample :
    (Line.copy { Line.new 0 0 2 2 with
        style := { defaultStyle with fill_color := "red" } }).style.fill_color ≠
      ({ Line.new 0 0 2 2 with
        style := { defaultStyle with fill_color := "red" } } : Line).style.fill_color ∧
    (Pentagon.copy (Pentagon.shear 1 0 (Pentagon.new 0 0 2))).points ≠
      (Pentagon.shear 1 0 (Pentagon.new 0 0 2)).points ∧
    (Rectangle.copy (Rectangle.scale (-1) none (Rectangle.new 0 0 2 2))).x1 ≠
      (Rectangle.scale (-1) none (Rectangle.new 0 0 2 2)).x1 := by
  refine ⟨by decide, ?_, ?_⟩
  · intro h
    simp only [Pentagon.copy, Pentagon.shear, Pentagon.new] at h
    have hh := congrArg List.head? h
    rw [generate_pentagon_points_head, List.head?_map,
      generate_pentagon_points_head] at hh
    norm_num [shearPt, Pt.mk.injEq] at hh
  · have h0 : Rectangle.new 0 0 2 2 =
        { x1 := 0, y1 := 0, x2 := 2, y2 := 2, style := defaultStyle } := by
      rw [Rectangle.new, min_eq_left (by norm_num : (0 : ℝ) ≤ 2),
        max_eq_right (by norm_num : (0 : ℝ) ≤ 2)]
    have h1 : Rectangle.scale (-1) none (Rectangle.new 0 0 2 2) =
        { x1 := 2, y1 := 2, x2 := 0, y2 := 0, style := defaultStyle } := by
      rw [h0]
      simp only [Rectangle.scale, Option.getD]
      norm_num [Rectangle.mk.injEq]
    rw [h1]
    simp only [Rectangle.copy]
    rw [min_eq_right (by norm_num : (0 : ℝ) ≤ 2)]
    norm_num

/-! ## Claim C5 -/

/-- C5 (amended): for every pair of drag points the Triangle factory
builds an equilateral triangle whose center is the MIDPOINT of the two
drag points (not the drag start) and whose size is half the Euclidean
drag distance, with the top vertex directly above that center and the
other two vertices at offsets `(±size*0.866, size*0.5)`. -/
theorem C5_triangle_factory (x1 y1 x2 y2 : ℝ) :
    create_shape Tool.triangle x1 y1 x2 y2 =
      some (Shape.triangle (Triangle.new x1 y1 x2 y2)) ∧
    (Triangle.new x1 y1 x2 y2).points =
      [{ x := (x1 + x2) / 2,
         y := (y1 + y2) / 2 - Real.sqrt ((x2 - x1) ^ 2 + (y2 - y1) ^ 2) / 2 },
       { x := (x1 + x2) / 2 - Real.sqrt ((x2 - x1) ^ 2 + (y2 - y1) ^ 2) / 2 * 0.866,
         y := (y1 + y2) / 2 + Real.sqrt ((x2 - x1) ^ 2 + (y2 - y1) ^ 2) / 2 * 0.5 },
       { x := (x1 + x2) / 2 + Real.sqrt ((x2 - x1) ^ 2 + (y2 - y1) ^ 2) / 2 * 0.866,
         y := (y1 + y2) / 2 + Real.sqrt ((x2 - x1) ^ 2 + (y2 - y1) ^ 2) / 2 * 0.5 }] :=
  ⟨rfl, rfl⟩

/-- Counterexample for C5 as stated: dragging from `(0,0)` to `(10,0)`
puts the top vertex at `(5, -5)` (above the midpoint), not at
`(0, -5)` above the drag start as the claim would require. -/
theorem C5_counterexample :
    (Triangle.new 0 0 10 0).points.head? ≠
      some { x := 0, y := (0 + 0) / 2 - Real.sqrt ((10 - 0) ^ 2 + (0 - 0) ^ 2) / 2 } := by
  intro h
  have h0 : (Triangle.new 0 0 10 0).points.head? =
      some { x := ((0 : ℝ) + 10) / 2,
             y := ((0 : ℝ) + 0) / 2 -
               Real.sqrt (((10 : ℝ) - 0) ^ 2 + ((0 : ℝ) - 0) ^ 2) / 2 } := rfl
  rw [h0] at h
  norm_num [Pt.mk.injEq] at h

/-! ## Claim C6 -/

/-- In the C6 scenario the rotation pivot `(30, 30)` is the center of
the ORIGINAL rectangle, not of the translated one (whose center is
`(35, 35)`), so the rotated corners are `(45,15), (45,55), (5,55),
(5,15)` and their bounding box is `(5, 15, 45, 55)`. -/
theorem rectDemo_bounds_after_rotate :
    Rectangle.get_bounds
      (Rectangle.rotate (Real.pi / 2) (some { x := 30, y := 30 })
        (Rectangle.translate 5 5 (Rectangle.new 10 10 50 50))) =
      (5, 15, 45, 55) := by
  have h0 : Rectangle.new 10 10 50 50 =
      { x1 := 10, y1 := 10, x2 := 50, y2 := 50, style := defaultStyle } := by
    rw [Rectangle.new, min_eq_left (by norm_num : (10 : ℝ) ≤ 50),
      max_eq_right (by norm_num : (10 : ℝ) ≤ 50)]
  rw [h0]
  simp only [Rectangle.translate, Rectangle.rotate, Rectangle.get_bounds,
    Option.getD, rotPt, Real.cos_pi_div_two, Real.sin_pi_div_two]
  norm_num [min_eq_left, min_eq_right, max_eq_left, max_eq_right, Prod.ext_iff]

/-- C6 (amended): creating a Rectangle from `(10,10)-(50,50)` gives
bounds `(10,10,50,50)`; translating by `(5,5)` gives `(15,15,55,55)`;
rotating by 90° about `(30,30)` stores the axis-aligned bounding box of
the four rotated corners, which is `(5,15,45,55)` — NOT
`(30±20, 30±20) = (10,10,50,50)`, because after the translation
`(30,30)` is no longer the rectangle's center. -/
theorem C6_rectangle_bounds_chain :
    Rectangle.get_bounds (Rectangle.new 10 10 50 50) = (10, 10, 50, 50) ∧
    Rectangle.get_bounds (Rectangle.translate 5 5 (Rectangle.new 10 10 50 50)) =
      (15, 15, 55, 55) ∧
    Rectangle.get_bounds
      (Rectangle.rotate (Real.pi / 2) (some { x := 30, y := 30 })
        (Rectangle.translate 5 5 (Rectangle.new 10 10 50 50))) =
      (5, 15, 45, 55) := by
  refine ⟨?_, ?_, rectDemo_bounds_after_rotate⟩
  · rw [Rectangle.new, min_eq_left (by norm_num : (10 : ℝ) ≤ 50),
      max_eq_right (by norm_num : (10 : ℝ) ≤ 50)]
    rfl
  · rw [Rectangle.new, min_eq_left (by norm_num : (10 : ℝ) ≤ 50),
      max_eq_right (by norm_num : (10 : ℝ) ≤ 50)]
    simp only [Rectangle.translate, Rectangle.get_bounds]
    norm_num

/-- Counterexample for C6 as stated: the bounding box after the rotation
is not the claimed `(30-20, 30-20, 30+20, 30+20) = (10,10,50,50)`. -/
theorem C6_counterexample :
    Rectangle.get_bounds
      (Rectangle.rotate (Real.pi / 2) (some { x := 30, y := 30 })
        (Rectangle.translate 5 5 (Rectangle.new 10 10 50 50))) ≠
      (30 - 20, 30 - 20, 30 + 20, 30 + 20) := by
  rw [rectDemo_bounds_after_rotate]
  norm_num [Prod.ext_iff]

/-! ## Claim C7 -/

/-- C7 (confirmed): shearing a Circle tessellates it into exactly 36
boundary points at angles `2*pi*i/36`, applies
`x' = x + shearX*y, y' = y + shearY*x` to each, and permanently changes
the variant identity to Polygon; the supports-shear capability check
performed afterwards (`hasattr(shape, 'shear')` in
`PaintApp.shear_transform`) reports true on the result. -/
theorem C7_circle_shear_tessellation (c : Circle) (sx sy : ℝ) :
    Shape.shear sx sy (Shape.circle c) = Shape.polygon (Circle.shear sx sy c) ∧
    (Circle.shear sx sy c).points.length = 36 ∧
    (∀ i : Fin 36, (Circle.shear sx sy c).points[(i : ℕ)]? =
        some (shearPt sx sy
          { x := c.center_x + c.radius * Real.cos (2 * Real.pi * ((i : ℕ) : ℝ) / 36),
            y := c.center_y + c.radius * Real.sin (2 * Real.pi * ((i : ℕ) : ℝ) / 36) })) ∧
    Shape.is_polygon (Shape.shear sx sy (Shape.circle c)) = true ∧
    Shape.has_shear_attr (Shape.shear sx sy (Shape.circle c)) = true := by
  refine ⟨rfl, ?_, ?_, rfl, rfl⟩
  · simp only [Circle.shear]
    rw [List.length_map, List.length_range]
  · intro i
    simp only [Circle.shear, List.getElem?_map, List.getElem?_range i.isLt,
      Option.map_some', shearPt]

/-! ## Claim C8 -/

/-- C8 (confirmed): `contains_point` is totally defined on degenerate
geometry: for a zero-length Line (coincident endpoints) it falls back to
testing the distance to the endpoint against 5, and for an Ellipse with
`width ≤ 0` or `height ≤ 0` it returns false, for every query point. -/
theorem C8_degenerate_contains (l : Line) (x y : ℝ) (e : Ellipse) (px py : ℝ)
    (hx : l.x1 = l.x2) (hy : l.y1 = l.y2) (he : e.width ≤ 0 ∨ e.height ≤ 0) :
    (Line.contains_point l x y ↔
      Real.sqrt ((x - l.x1) ^ 2 + (y - l.y1) ^ 2) < 5) ∧
    ¬ Ellipse.contains_point e px py := by
  constructor
  · have hA : l.y2 - l.y1 = 0 := by rw [hy]; ring
    have hB : l.x1 - l.x2 = 0 := by rw [hx]; ring
    simp only [Line.contains_point, hA, hB]
    rw [show (0 : ℝ) * 0 + 0 * 0 = 0 by ring, Real.sqrt_zero, if_pos rfl]
  · simp only [Ellipse.contains_point]
    rw [if_pos he]
    exact not_false

/-- Witness for C8: a zero-length Line at `(2,3)` queried at `(1,1)`
and a zero-height Ellipse queried at `(1,1)`. -/
theorem C8_degenerate_contains_witness :
    (Line.contains_point (Line.new 2 3 2 3) 1 1 ↔
      Real.sqrt ((1 - 2) ^ 2 + (1 - 3) ^ 2) < 5) ∧
    ¬ Ellipse.contains_point
        { center_x := 0, center_y := 0, width := 4, height := 0,
          style := defaultStyle } 1 1 :=
  C8_degenerate_contains (Line.new 2 3 2 3) 1 1 _ 1 1 rfl rfl (Or.inr (by norm_num))

/-! ## Claim C9 -/

/-- C9 (amended): a Circle's radius stays nonnegative under translate,
rotate (any pivot mode), and scale by a NONNEGATIVE factor; a negative
scale factor negates the radius (the code runs `radius *= factor` with
no absolute value), so the invariant does not survive negative factors,
which the spec deems valid inputs. -/
theorem C9_circle_radius_nonneg (c : Circle) (dx dy angle f : ℝ)
    (pivot : Option Pt) (h : 0 ≤ c.radius) (hf : 0 ≤ f) :
    0 ≤ (Circle.translate dx dy c).radius ∧
    0 ≤ (Circle.rotate angle pivot c).radius ∧
    0 ≤ (Circle.scale f pivot c).radius := by
  refine ⟨h, ?_, ?_⟩
  · cases pivot <;> exact h
  · cases pivot <;> exact mul_nonneg h hf

/-- Witness for C9: a radius-5 circle translated, rotated and scaled by
the nonnegative factor 2. -/
theorem C9_circle_radius_nonneg_witness :
    0 ≤ (Circle.translate 1 2
      { center_x := 0, center_y := 0, radius := 5, style := defaultStyle }).radius ∧
    0 ≤ (Circle.rotate 1 none
      { center_x := 0, center_y := 0, radius := 5, style := defaultStyle }).radius ∧
    0 ≤ (Circle.scale 2 none
      { center_x := 0, center_y := 0, radius := 5, style := defaultStyle }).radius :=
  C9_circle_radius_nonneg
    { center_x := 0, center_y := 0, radius := 5, style := defaultStyle }
    1 2 1 2 none (by norm_num) (by norm_num)

/-- Counterexample for C9 as stated: scaling a radius-5 circle by the
factor -1 (accepted by the engine) makes the radius -5 < 0. -/
theorem C9_counterexample :
    ¬ 0 ≤ (Circle.scale (-1) none
      { center_x := 0, center_y := 0, radius := 5, style := defaultStyle }).radius := by
  norm_num [Circle.scale]

/-! ## Claim C10 -/

/-- C10 (confirmed): for a Polygon with an empty point list, calling
scale or rotate with the pivot omitted hits the `sum/len`
division-by-zero in the default-centroid computation (modelled by
`none`, for Python's `ZeroDivisionError`), while with an explicit pivot
both operations return normally. -/
theorem C10_empty_polygon_pivot (p : Polygon) (f angle : ℝ) (c : Pt)
    (h : p.points = []) :
    Polygon.scale f none p = none ∧
    Polygon.rotate angle none p = none ∧
    (Polygon.scale f (some c) p).isSome = true ∧
    (Polygon.rotate angle (some c) p).isSome = true := by
  refine ⟨?_, ?_, rfl, rfl⟩ <;> simp [Polygon.scale, Polygon.rotate, centroid, h]

/-- Witness for C10: the empty Polygon with concrete parameters. -/
theorem C10_empty_polygon_pivot_witness :
    Polygon.scale 2 none (Polygon.new []) = none ∧
    Polygon.rotate 3 none (Polygon.new []) = none ∧
    (Polygon.scale 2 (some ⟨1, 1⟩) (Polygon.new [])).isSome = true ∧
    (Polygon.rotate 3 (some ⟨1, 1⟩) (Polygon.new [])).isSome = true :=
  C10_empty_polygon_pivot (Polygon.new []) 2 3 ⟨1, 1⟩ rfl

end MiniPaint
